import Mathlib

/-!
Verification development for the dual-mailer library (SMTP / Mailgun
transactional mail sender with a pooled, health-checked transporter cache).

The definitions below are a shallow embedding of the JavaScript sources:

* `src/unnamed/part_002` — the revision of `DualMailer` with retry support,
  consecutive-failure tracking and a `closing` flag.  Its methods
  `#validate_config`, `#validate_payload`, `#get_transport_config`,
  `#should_refresh_transporter`, `#close_transporter`, `#get_transporter`,
  `#create_html_email`, `#update_transporter_metrics`, the cleanup sweep,
  `send_mail` and `destroy` are embedded one-to-one.
* `src/src/index.js` — the earlier revision; the parts where it differs and
  where claims cite it (its four-clause refresh predicate and its
  "force refresh on error" mutation) are embedded under `v0_` names.

JavaScript truthiness on optional string/number fields is made explicit
(`none` and the empty string / zero are falsy).  Times are naturals
(milliseconds); the possibly-negative differences of JavaScript compare equal to
truncated `Nat` subtraction in every predicate used (both make the strict
comparison false when the subtrahend exceeds the minuend).
-/

/-- Error codes of `EMAIL_ERROR_CODES` in the source. -/
inductive ErrorCode where
  | CONFIGURATION
  | TRANSPORT
  | VALIDATION
  | SEND
  | CONNECTION
deriving Repr, DecidableEq

/-- String value of an error code, as in `EMAIL_ERROR_CODES`. -/
def ErrorCode.str : ErrorCode → String
  | .CONFIGURATION => "EMAIL_CONFIG_ERROR"
  | .TRANSPORT => "EMAIL_TRANSPORT_ERROR"
  | .VALIDATION => "EMAIL_VALIDATION_ERROR"
  | .SEND => "EMAIL_SEND_ERROR"
  | .CONNECTION => "EMAIL_CONNECTION_ERROR"

/-- A thrown JavaScript value: either an `EmailError` (message, code,
optional `originalError`) or any other error-like value carrying a message. -/
inductive JsError where
  | email (message : String) (code : ErrorCode) (original : Option JsError)
  | other (message : String)
deriving Repr

/-- Reading `error.message`. -/
def JsError.message : JsError → String
  | .email m _ _ => m
  | .other m => m

/-- The `error instanceof EmailError` test. -/
def JsError.isEmailError : JsError → Bool
  | .email _ _ _ => true
  | .other _ => false

/-- Reading `error.code` of an `EmailError` (`none` on other errors). -/
def JsError.code : JsError → Option ErrorCode
  | .email _ c _ => some c
  | .other _ => none

/-- The `MailConfig` object.  Optional fields model absent keys; JavaScript
truthiness additionally treats the empty string and `0` as absent. -/
structure MailConfig where
  mailgun_api_key : Option String
  mailgun_domain : Option String
  host : Option String
  port : Option Nat
  user : Option String
  password : Option String
  noreply_email : Option String
  is_dev : Bool
deriving Repr, DecidableEq

/-- JavaScript truthiness of an optional string (`undefined` and `""` are
falsy). -/
def truthyS : Option String → Bool
  | none => false
  | some s => !(s == "")

/-- JavaScript truthiness of an optional number (`undefined` and `0` are
falsy). -/
def truthyN : Option Nat → Bool
  | none => false
  | some n => !(n == 0)

/-- Helper building the `EmailError` that `#validate_config` throws: the
inner `new Error(msg)` is wrapped as `new EmailError(msg, VALIDATION, err)`. -/
def config_validation_error (msg : String) : JsError :=
  .email msg .VALIDATION (some (.other msg))

/-- Embedding of `#validate_config` (part_002 lines 149-185; identical in
index.js): returns the thrown error, or `none` when the config is valid. -/
def validate_config (c : MailConfig) : Option JsError :=
  let has_smtp := truthyS c.host && truthyN c.port
  let has_mailgun := truthyS c.mailgun_api_key && truthyS c.mailgun_domain
  if !has_smtp && !has_mailgun then
    some (config_validation_error
      "Must provide either SMTP (host + port) or Mailgun (api_key + domain) configuration")
  else if truthyS c.host && !truthyN c.port then
    some (config_validation_error "SMTP port is required when host is provided")
  else if truthyN c.port && !truthyS c.host then
    some (config_validation_error "SMTP host is required when port is provided")
  else if truthyS c.mailgun_api_key && !truthyS c.mailgun_domain then
    some (config_validation_error "Mailgun domain is required when api_key is provided")
  else if truthyS c.mailgun_domain && !truthyS c.mailgun_api_key then
    some (config_validation_error "Mailgun API key is required when domain is provided")
  else if truthyS c.user && !truthyS c.password then
    some (config_validation_error "SMTP password is required when user is provided")
  else if truthyS c.password && !truthyS c.user then
    some (config_validation_error "SMTP user is required when password is provided")
  else none

/-- The `auth` block of an SMTP transport configuration. -/
structure SmtpAuth where
  user : String
  pass : String
deriving Repr, DecidableEq

/-- Pool / rate settings attached to an authenticated SMTP transport
configuration (part_002 lines 229-233). -/
structure PoolSettings where
  pool : Bool
  maxConnections : Nat
  maxMessages : Nat
  rateDelta : Nat
  rateLimit : Nat
deriving Repr, DecidableEq

/-- The transport configuration object `#get_transport_config` returns:
an SMTP descriptor (with the auth/pool block present exactly when it was
added) or a Mailgun transport descriptor. -/
inductive TransportConfig where
  | smtp (host : String) (port : Nat) (secure : Bool)
      (auth : Option (SmtpAuth × PoolSettings))
  | mailgun (api_key : String) (domain : String)
deriving Repr, DecidableEq

/-- Embedding of `#get_transport_config` (part_002 lines 211-258; identical
in index.js).  Note the function reads only the stored `MailConfig`; the
constructor options (and in particular any `rate_limit` option) are not
consulted anywhere in it, and the pool settings are the literals
`5, 200, 1000, 5`. -/
def get_transport_config (c : MailConfig) : Except JsError TransportConfig :=
  if truthyS c.host && truthyN c.port then
    .ok (.smtp ((c.host).getD "") ((c.port).getD 0) (!c.is_dev)
      (if truthyS c.user && truthyS c.password then
        some ({ user := (c.user).getD "", pass := (c.password).getD "" },
          { pool := true, maxConnections := 5, maxMessages := 200,
            rateDelta := 1000, rateLimit := 5 })
      else none))
  else if truthyS c.mailgun_api_key && truthyS c.mailgun_domain then
    .ok (.mailgun ((c.mailgun_api_key).getD "") ((c.mailgun_domain).getD ""))
  else
    .error (.email "Failed to create transport configuration" .TRANSPORT
      (some (.other "No valid transport configuration found")))

/-- The `html` part of a send payload.  `title` and `body` are strings where
the empty string is the falsy/"missing" case `#validate_payload` rejects;
`style` keeps the absent case since `#create_html_email` applies
a nullish-coalescing default to it. -/
structure EmailHtml where
  title : String
  style : Option String
  body : String
deriving Repr, DecidableEq

/-- A send payload.  `to_` and `subject` use the empty string for the falsy
"missing" case; a wholly missing `html` object is `none`.  (`to` and `from`
are reserved words in Lean, hence the trailing underscores; they model the
payload fields `to` and `from`.) -/
structure EmailPayload where
  to_ : String
  subject : String
  text : Option String
  from_ : Option String
  html : Option EmailHtml
  reply_to : Option String
deriving Repr, DecidableEq

/-- Embedding of `#validate_payload` (part_002 lines 192-206; identical in
index.js): the thrown `EmailError`, or `none` when the payload is valid. -/
def validate_payload (p : EmailPayload) : Option JsError :=
  let missing_fields :=
    (if p.to_ == "" then ["to"] else []) ++
    (if p.subject == "" then ["subject"] else []) ++
    (if p.html.isNone then ["html"] else [])
  if missing_fields.length > 0 then
    some (.email ("Missing required fields: " ++ String.intercalate ", " missing_fields)
      .VALIDATION none)
  else
    let h := (p.html).getD { title := "", style := none, body := "" }
    if h.title == "" || h.body == "" then
      some (.email "HTML email requires both title and body" .VALIDATION none)
    else none

/-- Embedding of `#create_html_email` (part_002 lines 404-420; identical in
index.js): the template literal is the concatenation of its fixed chunks
with the three interpolated fields, `style` defaulted by nullish coalescing
to the empty string. -/
def create_html_email (h : EmailHtml) : String :=
  "<!doctype html>\n      <html lang=\"en\">\n        <head>\n          <title>"
    ++ h.title ++
  "</title>\n          <style>\n            "
    ++ ((h.style).getD "") ++
  "\n            body \x7bfont-family: sans-serif;\x7d\n          </style>\n        </head>\n        <body>\n          "
    ++ h.body ++
  "     \n        </body>\n      </html>\n    "

/-- Retry configuration.  The fields carry the names `send_mail` actually
reads (`maxRetries`, `retryDelay`, `retryableErrors`, as in the JSDoc and
`index.d.ts`); each is optional because `should_retry` applies `?? / ?.`
defaults.  (The fallback object literal of the constructor spells its keys
`max_retries` / `retry_delay` / `retryable_errors`, which are not the keys
later read; since that fallback is only installed when retries are disabled,
its field values are never consulted, and it is modelled as the
all-absent configuration.) -/
structure RetryConfig where
  maxRetries : Option Nat
  retryDelay : Option Nat
  retryableErrors : Option (List String)
deriving Repr, DecidableEq

/-- Whether `bs` starts with `needle` (character lists). -/
def starts_with_chars : List Char → List Char → Bool
  | _, [] => true
  | [], _ :: _ => false
  | b :: bs, a :: as => a == b && starts_with_chars bs as

/-- Substring containment on character lists, used to model
the JavaScript `String.prototype.includes` method. -/
def chars_contain : List Char → List Char → Bool
  | [], needle => needle.isEmpty
  | b :: bs, needle => starts_with_chars (b :: bs) needle || chars_contain bs needle

/-- JavaScript `haystack.includes(needle)` on strings. -/
def js_includes (haystack needle : String) : Bool :=
  chars_contain haystack.data needle.data

/-- Propositional substring containment: `t` occurs contiguously in `s`. -/
def contains_str (s t : String) : Prop :=
  ∃ p q, s.data = p ++ t.data ++ q

/-- Embedding of the `should_retry` closure in `send_mail`
(part_002 lines 491-496). -/
def should_retry (retry_enabled : Bool) (retry : RetryConfig)
    (message : String) (attempt : Nat) : Bool :=
  if !retry_enabled then false
  else if attempt > (retry.maxRetries).getD 3 then false
  else if ((retry.retryableErrors).getD []).isEmpty then true
  else ((retry.retryableErrors).getD []).any (fun msg => js_includes message msg)

/-- The backoff delay computed at a failing attempt `attempt` before the
next retry: `(this.#retry.retryDelay ?? 1000) * Math.pow(2, attempt - 1)`
(part_002 line 545). -/
def retry_delay_for (retry : RetryConfig) (attempt : Nat) : Nat :=
  ((retry.retryDelay).getD 1000) * 2 ^ (attempt - 1)

/-- A cached transporter record (the value stored in `#transporter_cache`,
part_002 lines 366-373).  The underlying connection handle is identified by
the creation index `transporter`. -/
structure TransporterInfo where
  transporter : Nat
  created_at : Nat
  email_count : Nat
  last_used : Nat
  consecutive_failures : Nat
  closing : Bool
deriving Repr, DecidableEq

/-- Mailer pool state: the keyed transporter cache together with
instrumentation the tests observe — the number of `createTransport` calls,
the number of `verify` calls, the log of handles `close()` was invoked on,
and the log of retry sleeps.  `cleanup_active` models whether the periodic
cleanup interval is running. -/
structure MailerState where
  cache : List (String × TransporterInfo)
  cleanup_active : Bool
  next_id : Nat
  create_count : Nat
  verify_count : Nat
  close_calls : List Nat
  sleeps : List Nat
deriving Repr, DecidableEq

/-- `Map.get(k)` on the cache. -/
def cache_get (c : List (String × TransporterInfo)) (k : String) :
    Option TransporterInfo :=
  match c.find? (fun p => p.1 == k) with
  | some p => some p.2
  | none => none

/-- `Map.delete(k)` on the cache. -/
def cache_delete (c : List (String × TransporterInfo)) (k : String) :
    List (String × TransporterInfo) :=
  c.filter (fun p => !(p.1 == k))

/-- `Map.set(k, v)` on the cache (replace in place, else append). -/
def cache_set (c : List (String × TransporterInfo)) (k : String)
    (v : TransporterInfo) : List (String × TransporterInfo) :=
  match c with
  | [] => [(k, v)]
  | p :: rest => if p.1 == k then (k, v) :: rest else p :: cache_set rest k v

/-- Embedding of `#should_refresh_transporter` (part_002 lines 265-290).
`now` is `Date.now()` and `is_idle` the result of
`info.transporter.isIdle()`.  The thresholds are the instance fields
`#max_transporter_age = 1000*60*30`, `#max_emails_per_transporter = 1000`,
`#max_idle_time = 1000*60*15`, `#max_consecutive_failures = 3`. -/
def should_refresh_transporter (now : Nat) (is_idle : Bool)
    (info : TransporterInfo) : Bool :=
  let age := now - info.created_at
  let idle_time := now - info.last_used
  decide (age > 1000 * 60 * 30) ||
  decide (info.email_count > 1000) ||
  decide (idle_time > 1000 * 60 * 15) ||
  !is_idle ||
  decide (info.consecutive_failures >= 3)

/-- The handles `#close_transporter(info)` invokes `close()` on: one
invocation when the record is not already closing, none otherwise
(part_002 lines 297-320; a rejected or timed-out close is caught and only
logged, so the result never depends on the close outcome). -/
def close_invocations (info : TransporterInfo) : List Nat :=
  if info.closing then [] else [info.transporter]

/-- Environment of one `#get_transporter` call: the current time, whether
`verify()` on the cached transporter resolves truthily (`false` covers a
falsy resolution, a rejection and the 5 s timeout — all reach the same
`catch`), the `isIdle()` answer of the cached transporter, and the outcome of the
`verify()` on a freshly created transporter (`none` = success, `some e` =
the rejection/timeout error `e`). -/
structure AcquireEnv where
  now : Nat
  verify_existing : Bool
  is_idle : Bool
  verify_new : Option JsError
deriving Repr

/-- Embedding of `#get_transporter` (part_002 lines 327-398).  Returns the
updated state and either the acquired connection handle or the thrown
`EmailError`.  The creation branch mirrors the source: build the transport
config (failure is wrapped as a TRANSPORT error), create the transporter
(incrementing the creation counter), verify it, and only cache it when the
verify succeeds. -/
def get_transporter (cfg : MailConfig) (env : AcquireEnv) (st : MailerState) :
    MailerState × Except JsError Nat :=
  let create : MailerState → MailerState × Except JsError Nat := fun st0 =>
    match get_transport_config cfg with
    | .error e =>
      (st0, .error (.email ("Failed to create transporter: " ++ e.message)
        .TRANSPORT (some e)))
    | .ok _ =>
      let id := st0.next_id
      let info : TransporterInfo :=
        { transporter := id, created_at := env.now, email_count := 0,
          last_used := env.now, consecutive_failures := 0, closing := false }
      let st1 :=
        { st0 with next_id := id + 1, create_count := st0.create_count + 1,
                   verify_count := st0.verify_count + 1 }
      match env.verify_new with
      | none => ({ st1 with cache := cache_set st1.cache "default" info }, .ok id)
      | some e =>
        (st1, .error (.email ("Failed to create transporter: " ++ e.message)
          .TRANSPORT (some e)))
  match cache_get st.cache "default" with
  | none => create st
  | some existing =>
    let st0 := { st with verify_count := st.verify_count + 1 }
    if env.verify_existing then
      if should_refresh_transporter env.now env.is_idle existing then
        create { st0 with cache := cache_delete st0.cache "default",
                          close_calls := st0.close_calls ++ close_invocations existing }
      else (st0, .ok existing.transporter)
    else
      create { st0 with cache := cache_delete st0.cache "default",
                        close_calls := st0.close_calls ++ close_invocations existing }

/-- Embedding of `#update_transporter_metrics` (part_002 lines 426-444):
on the record cached under the default key (when present), increment the email
count, stamp `last_used`, and reset (on success) or increment (on failure)
the consecutive-failure counter. -/
def update_transporter_metrics (success : Bool) (now : Nat)
    (st : MailerState) : MailerState :=
  match cache_get st.cache "default" with
  | none => st
  | some info =>
    let info1 :=
      { info with email_count := info.email_count + 1, last_used := now,
                  consecutive_failures :=
                    if success then 0 else info.consecutive_failures + 1 }
    { st with cache := cache_set st.cache "default" info1 }

/-- One pass of the cleanup interval body over the cache entries
(part_002 lines 450-479): each entry satisfying the refresh predicate is
closed and deleted; the rest are kept.  `idle_of` gives the `isIdle()`
answer per handle.  Returns the surviving cache and the close-invocation
log of the pass. -/
def sweep_entries (now : Nat) (idle_of : Nat → Bool) :
    List (String × TransporterInfo) →
    List (String × TransporterInfo) × List Nat
  | [] => ([], [])
  | (k, info) :: rest =>
    let r := sweep_entries now idle_of rest
    if should_refresh_transporter now (idle_of info.transporter) info then
      (r.1, close_invocations info ++ r.2)
    else ((k, info) :: r.1, r.2)

/-- The periodic sweep (`#start_cleanup_interval`, part_002 lines 450-479):
runs only while the interval is active. -/
def cleanup_sweep (now : Nat) (idle_of : Nat → Bool) (st : MailerState) :
    MailerState :=
  if st.cleanup_active then
    let r := sweep_entries now idle_of st.cache
    { st with cache := r.1, close_calls := st.close_calls ++ r.2 }
  else st

/-- Per-record close outcomes a `destroy()` run may observe. -/
inductive CloseOutcome where
  | ok
  | failure
  | timeout
deriving Repr, DecidableEq

/-- The close invocations a `destroy()` performs: one per cache entry that
is not already closing, in iteration order (part_002 lines 598-620). -/
def destroy_close_list : List (String × TransporterInfo) → List Nat
  | [] => []
  | (_, info) :: rest => close_invocations info ++ destroy_close_list rest

/-- Embedding of `destroy()` (part_002 lines 598-620): stop the cleanup
interval, close every cached transporter (`#close_transporter` catches every
failure and the 5 s timeout internally, so each entry is deleted whatever
its close outcome — the `outcomes` argument therefore cannot influence the
result), and remove every entry. -/
def destroy (st : MailerState) (_outcomes : List CloseOutcome) : MailerState :=
  { st with cleanup_active := false,
            cache := [],
            close_calls := st.close_calls ++ destroy_close_list st.cache }

/-- Environment of one iteration of the `send_mail` retry loop: the acquire
environment for `#get_transporter` plus the outcome of
`transporter.sendMail(...)` (`none` = resolves, `some e` = rejects with
`e`). -/
structure AttemptEnv where
  acquire : AcquireEnv
  dispatch : Option JsError
deriving Repr

/-- Result of a `send_mail` call: normal return, a thrown error, or the
marker that the supplied environment script was shorter than the number of
loop iterations (no claim is evaluated past the script). -/
inductive SendOutcome where
  | success
  | error (e : JsError)
  | out_of_script
deriving Repr

/-- The outer `catch` of `send_mail` (part_002 lines 573-591): an
`EmailError` is re-thrown unchanged, any other thrown value is wrapped into
an `EmailError` with code SEND mentioning the attempt count. -/
def normalize_error (attempt : Nat) (e : JsError) : JsError :=
  if e.isEmailError then e
  else .email ("Unexpected error sending email after " ++ toString attempt
    ++ " attempt(s): " ++ e.message) .SEND (some e)

/-- Embedding of the body of `send_mail` (part_002 lines 486-593) as a
function of the per-attempt environment script.  Each iteration validates
the payload, acquires a transporter, dispatches, and on a dispatch failure
updates the failure metrics and either sleeps the backoff delay and retries
(when `should_retry` approves) or throws the final SEND error; every throw
passes through `normalize_error` (the outer catch). -/
def send_loop (cfg : MailConfig) (retry_enabled : Bool) (retry : RetryConfig)
    (payload : EmailPayload) :
    List AttemptEnv → Nat → MailerState → MailerState × SendOutcome
  | [], _, st => (st, .out_of_script)
  | env :: rest, attempt, st =>
    match validate_payload payload with
    | some e => (st, .error (normalize_error attempt e))
    | none =>
      match get_transporter cfg env.acquire st with
      | (st1, .error e) => (st1, .error (normalize_error attempt e))
      | (st1, .ok _tid) =>
        match env.dispatch with
        | none =>
          (update_transporter_metrics true env.acquire.now st1, .success)
        | some err =>
          let st2 := update_transporter_metrics false env.acquire.now st1
          if should_retry retry_enabled retry err.message attempt then
            let st3 := { st2 with sleeps := st2.sleeps ++ [retry_delay_for retry attempt] }
            send_loop cfg retry_enabled retry payload rest (attempt + 1) st3
          else
            (st2, .error (normalize_error attempt
              (.email ("Failed to send email after " ++ toString attempt
                ++ " attempt(s): " ++ err.message) .SEND (some err))))

/-- `send_mail(payload)` starts the loop at attempt 1 (part_002 line 489). -/
def send_mail (cfg : MailConfig) (retry_enabled : Bool) (retry : RetryConfig)
    (payload : EmailPayload) (envs : List AttemptEnv) (st : MailerState) :
    MailerState × SendOutcome :=
  send_loop cfg retry_enabled retry payload envs 1 st

/-- The `rate_limit` option object declared in `index.d.ts`
(`RateLimitConfig`, lines 58-63). -/
structure RateLimitConfig where
  max_connections : Option Nat
  max_messages_per_connection : Option Nat
  rate_delta : Option Nat
  rate_limit : Option Nat
deriving Repr, DecidableEq

/-- Constructor options (`MailerOptions`): logger behaviour is not
observable in this embedding, so only `silent` is kept of it. -/
structure MailerOptions where
  silent : Bool
  retry : Option RetryConfig
  rate_limit : Option RateLimitConfig
deriving Repr, DecidableEq

/-- The fields of a constructed `DualMailer` instance that the embedded
operations read.  Note that, exactly as in the source constructor
(part_002 lines 89-123), nothing of `options.rate_limit` is stored: no
revision of the source ever reads that option. -/
structure Mailer where
  config : MailConfig
  retry : RetryConfig
  retry_enabled : Bool
  cleanup_active : Bool
deriving Repr, DecidableEq

/-- Embedding of the `DualMailer` constructor (part_002 lines 89-123).
The fallback object of `options.retry ?? \x7b...\x7d` is spelled with
`max_retries`/`retry_delay`/`retryable_errors` keys in the source, which are
not the `maxRetries`/`retryDelay`/`retryableErrors` keys `should_retry`
reads, so as a `RetryConfig` it has every read field absent. -/
def init_mailer (config : MailConfig) (options : MailerOptions) :
    Except JsError Mailer :=
  match validate_config config with
  | some e =>
    .error (.email ("Configuration error: " ++ e.message) .CONFIGURATION (some e))
  | none =>
    .ok { config := config,
          retry := (options.retry).getD
            { maxRetries := none, retryDelay := none, retryableErrors := none },
          retry_enabled := (options.retry).isSome,
          cleanup_active := !config.is_dev }

/-- Transporter record of the earlier revision `src/src/index.js`
(lines 291-296): no failure counter, no closing flag. -/
structure V0TransporterInfo where
  transporter : Nat
  created_at : Nat
  email_count : Nat
  last_used : Nat
deriving Repr, DecidableEq

/-- Embedding of `#should_refresh_transporter` of `src/src/index.js`
(lines 241-252): four clauses, no consecutive-failure clause. -/
def v0_should_refresh_transporter (now : Nat) (is_idle : Bool)
    (info : V0TransporterInfo) : Bool :=
  let age := now - info.created_at
  let idle_time := now - info.last_used
  decide (age > 1000 * 60 * 30) ||
  decide (info.email_count > 1000) ||
  decide (idle_time > 1000 * 60 * 15) ||
  !is_idle

/-- Embedding of the "Force transporter refresh on error" mutation in the
send-failure handler of `src/src/index.js` (lines 397-401): the cached
email count of the record is set to `#max_emails_per_transporter` (1000). -/
def v0_mark_failed (info : V0TransporterInfo) : V0TransporterInfo :=
  { info with email_count := 1000 }

/-- Embedding of the cache decision of `#get_transporter` in
`src/src/index.js` (lines 270-300) for a present cache entry whose
`verify()` succeeds: the cached handle is returned, and no transporter is
created, if and only if the refresh predicate is false; otherwise the entry
is closed, evicted and replaced by a newly created transporter (that
revision does not verify the new transporter). -/
def v0_acquire_existing (now : Nat) (is_idle : Bool) (next_id : Nat)
    (info : V0TransporterInfo) : Nat × Bool :=
  if v0_should_refresh_transporter now is_idle info then (next_id, true)
  else (info.transporter, false)

/-- Statement of the spec sentence of claim C6 that the pooling parameters
are "all configurable, with defaults: 5 connections, 200
messages/connection, 1000 ms window, 5 messages/window": the pool settings
the descriptor would carry if the declared `rate_limit` option were applied
with those defaults.  This definition follows the spec wording (for
comparison against `get_transport_config`); the source never reads the
option. -/
def spec_pool_settings (opts : MailerOptions) : PoolSettings :=
  { pool := true,
    maxConnections := ((opts.rate_limit).bind (fun r => r.max_connections)).getD 5,
    maxMessages := ((opts.rate_limit).bind (fun r => r.max_messages_per_connection)).getD 200,
    rateDelta := ((opts.rate_limit).bind (fun r => r.rate_delta)).getD 1000,
    rateLimit := ((opts.rate_limit).bind (fun r => r.rate_limit)).getD 5 }

theorem string_data_append (a b : String) : (a ++ b).data = a.data ++ b.data := by
  cases a
  cases b
  rfl

theorem string_eq_of_data {a b : String} (h : a.data = b.data) : a = b := by
  cases a
  cases b
  exact congrArg String.mk h

theorem str_append_assoc (a b c : String) : a ++ b ++ c = a ++ (b ++ c) := by
  apply string_eq_of_data
  simp [string_data_append]

theorem contains_of_decomp {s t : String} (a b : String)
    (h : s = a ++ t ++ b) : contains_str s t := by
  refine ⟨a.data, b.data, ?_⟩
  subst h
  simp [string_data_append]

theorem starts_with_chars_iff (needle hay : List Char) :
    starts_with_chars hay needle = true ↔ ∃ q, hay = needle ++ q := by
  induction needle generalizing hay with
  | nil =>
    cases hay <;> simp [starts_with_chars]
  | cons a as ih =>
    cases hay with
    | nil => simp [starts_with_chars]
    | cons b bs =>
      simp only [starts_with_chars, Bool.and_eq_true, beq_iff_eq, ih bs,
        List.cons_append]
      constructor
      · rintro ⟨rfl, q, rfl⟩
        exact ⟨q, rfl⟩
      · rintro ⟨q, hq⟩
        cases hq
        exact ⟨rfl, q, rfl⟩

theorem chars_contain_iff (hay needle : List Char) :
    chars_contain hay needle = true ↔ ∃ p q, hay = p ++ needle ++ q := by
  induction hay with
  | nil =>
    simp only [chars_contain, List.isEmpty_iff]
    constructor
    · rintro rfl
      exact ⟨[], [], rfl⟩
    · rintro ⟨p, q, hpq⟩
      rcases List.append_eq_nil.mp (List.append_eq_nil.mp hpq.symm).1 with ⟨_, h2⟩
      exact h2
  | cons b bs ih =>
    simp only [chars_contain, Bool.or_eq_true, starts_with_chars_iff, ih]
    constructor
    · rintro (⟨q, hq⟩ | ⟨p, q, hpq⟩)
      · exact ⟨[], q, by simpa using hq⟩
      · exact ⟨b :: p, q, by simp [hpq]⟩
    · rintro ⟨p, q, hpq⟩
      cases p with
      | nil =>
        left
        exact ⟨q, by simpa using hpq⟩
      | cons c p =>
        right
        simp only [List.cons_append, List.cons.injEq] at hpq
        exact ⟨p, q, hpq.2⟩

theorem js_includes_iff (s t : String) :
    js_includes s t = true ↔ contains_str s t := by
  exact chars_contain_iff s.data t.data

/-- Claim C9: HTML rendering is a pure deterministic function of
`(title, style, body)`: the rendered document contains
`<title>` ++ title ++ `</title>`, the caller style text inside the
`<style>` block immediately followed by the fixed base rule
`body \x7bfont-family: sans-serif;\x7d`, and the body fragment verbatim
inside `<body>`; an absent style renders exactly like the empty style, and
repeated calls with the same input give the identical document. -/
theorem claim_C9 (title style body : String) :
    contains_str (create_html_email { title := title, style := some style, body := body })
      ("<title>" ++ title ++ "</title>") ∧
    contains_str (create_html_email { title := title, style := some style, body := body })
      ("<style>\n            " ++ style ++
        "\n            body \x7bfont-family: sans-serif;\x7d\n          </style>") ∧
    contains_str (create_html_email { title := title, style := some style, body := body })
      ("<body>\n          " ++ body ++ "     \n        </body>") ∧
    create_html_email { title := title, style := none, body := body } =
      create_html_email { title := title, style := some "", body := body } ∧
    create_html_email { title := title, style := some style, body := body } =
      create_html_email { title := title, style := some style, body := body } := by
  have m1 : ("<!doctype html>\n      <html lang=\"en\">\n        <head>\n          " : String)
      ++ "<title>"
      = "<!doctype html>\n      <html lang=\"en\">\n        <head>\n          <title>" := by
    decide
  have m2 : ∀ Y : String, Y ++ "</title>" ++ "\n          <style>\n            "
      = Y ++ "</title>\n          <style>\n            " := by
    intro Y
    rw [str_append_assoc]
    have h : ("</title>" : String) ++ "\n          <style>\n            "
        = "</title>\n          <style>\n            " := by decide
    rw [h]
  have m3 : ∀ Y : String, Y ++ "</title>\n          " ++ "<style>\n            "
      = Y ++ "</title>\n          <style>\n            " := by
    intro Y
    rw [str_append_assoc]
    have h : ("</title>\n          " : String) ++ "<style>\n            "
        = "</title>\n          <style>\n            " := by decide
    rw [h]
  have m4 : ∀ Y : String,
      Y ++ "\n            body \x7bfont-family: sans-serif;\x7d\n          </style>"
        ++ "\n        </head>\n        <body>\n          "
      = Y ++ "\n            body \x7bfont-family: sans-serif;\x7d\n          </style>\n        </head>\n        <body>\n          " := by
    intro Y
    rw [str_append_assoc]
    have h : ("\n            body \x7bfont-family: sans-serif;\x7d\n          </style>" : String)
        ++ "\n        </head>\n        <body>\n          "
        = "\n            body \x7bfont-family: sans-serif;\x7d\n          </style>\n        </head>\n        <body>\n          " := by
      decide
    rw [h]
  have m5 : ∀ Y : String,
      Y ++ "\n            body \x7bfont-family: sans-serif;\x7d\n          </style>\n        </head>\n        "
        ++ "<body>\n          "
      = Y ++ "\n            body \x7bfont-family: sans-serif;\x7d\n          </style>\n        </head>\n        <body>\n          " := by
    intro Y
    rw [str_append_assoc]
    have h : ("\n            body \x7bfont-family: sans-serif;\x7d\n          </style>\n        </head>\n        " : String)
        ++ "<body>\n          "
        = "\n            body \x7bfont-family: sans-serif;\x7d\n          </style>\n        </head>\n        <body>\n          " := by
      decide
    rw [h]
  have m6 : ∀ Y : String, Y ++ "     \n        </body>" ++ "\n      </html>\n    "
      = Y ++ "     \n        </body>\n      </html>\n    " := by
    intro Y
    rw [str_append_assoc]
    have h : ("     \n        </body>" : String) ++ "\n      </html>\n    "
        = "     \n        </body>\n      </html>\n    " := by decide
    rw [h]
  refine ⟨?_, ?_, ?_, rfl, rfl⟩
  · apply contains_of_decomp
      ("<!doctype html>\n      <html lang=\"en\">\n        <head>\n          ")
      ("\n          <style>\n            " ++ style ++
        "\n            body \x7bfont-family: sans-serif;\x7d\n          </style>\n        </head>\n        <body>\n          "
        ++ body ++ "     \n        </body>\n      </html>\n    ")
    simp only [create_html_email, Option.getD_some, ← str_append_assoc]
    rw [m1, m2]
  · apply contains_of_decomp
      ("<!doctype html>\n      <html lang=\"en\">\n        <head>\n          <title>"
        ++ title ++ "</title>\n          ")
      ("\n        </head>\n        <body>\n          " ++ body ++
        "     \n        </body>\n      </html>\n    ")
    simp only [create_html_email, Option.getD_some, ← str_append_assoc]
    rw [m3, m4]
  · apply contains_of_decomp
      ("<!doctype html>\n      <html lang=\"en\">\n        <head>\n          <title>"
        ++ title ++ "</title>\n          <style>\n            " ++ style ++
        "\n            body \x7bfont-family: sans-serif;\x7d\n          </style>\n        </head>\n        ")
      ("\n      </html>\n    ")
    simp only [create_html_email, Option.getD_some, ← str_append_assoc]
    rw [m5, m6]

theorem cache_get_cons (p : String × TransporterInfo)
    (rest : List (String × TransporterInfo)) (k : String) :
    cache_get (p :: rest) k =
      if p.1 == k then some p.2 else cache_get rest k := by
  simp only [cache_get, List.find?]
  cases h : p.1 == k <;> simp [h]

theorem cache_delete_cons (p : String × TransporterInfo)
    (rest : List (String × TransporterInfo)) (k : String) :
    cache_delete (p :: rest) k =
      if p.1 == k then cache_delete rest k else p :: cache_delete rest k := by
  simp only [cache_delete, List.filter_cons]
  cases h : p.1 == k <;> simp [h]

theorem cache_get_delete (c : List (String × TransporterInfo)) (k : String) :
    cache_get (cache_delete c k) k = none := by
  induction c with
  | nil => rfl
  | cons p rest ih =>
    rw [cache_delete_cons]
    cases h : p.1 == k with
    | true => simpa [h] using ih
    | false => rw [if_neg (by simp [h]), cache_get_cons, if_neg (by simp [h])]; exact ih

theorem cache_get_set (c : List (String × TransporterInfo)) (k : String)
    (v : TransporterInfo) : cache_get (cache_set c k v) k = some v := by
  induction c with
  | nil => simp [cache_set, cache_get, List.find?]
  | cons p rest ih =>
    cases h : p.1 == k with
    | true =>
      simp only [cache_set, h, if_true]
      rw [cache_get_cons]
      simp
    | false =>
      simp only [cache_set, h, Bool.false_eq_true, if_false]
      rw [cache_get_cons, if_neg (by simp [h])]
      exact ih

theorem cache_set_keys (c : List (String × TransporterInfo)) (k : String)
    (v : TransporterInfo) (info : TransporterInfo)
    (h : cache_get c k = some info) :
    (cache_set c k v).map Prod.fst = c.map Prod.fst := by
  induction c with
  | nil => simp [cache_get, List.find?] at h
  | cons p rest ih =>
    cases hk : p.1 == k with
    | true =>
      simp only [cache_set, hk, if_true, List.map_cons]
      have hpk : p.1 = k := beq_iff_eq.mp hk
      simp [hpk]
    | false =>
      rw [cache_get_cons, if_neg (by simp [hk])] at h
      simp only [cache_set, hk, Bool.false_eq_true, if_false, List.map_cons]
      rw [ih h]

/-- Claim C1: the refresh predicate holds if and only if at least one of the
five conditions holds (age above 30 minutes, more than 1000 emails, idle
above 15 minutes, the connection not idle, at least 3 consecutive
failures); the lazy acquire path reuses a verified cached transporter
exactly when the predicate is false (evicting it otherwise), and the
periodic sweep retains an entry exactly when the predicate is false. -/
theorem claim_C1 :
    (∀ (now : Nat) (is_idle : Bool) (info : TransporterInfo),
      should_refresh_transporter now is_idle info = true ↔
        (now - info.created_at > 30 * 60 * 1000 ∨
         info.email_count > 1000 ∨
         now - info.last_used > 15 * 60 * 1000 ∨
         is_idle = false ∨
         info.consecutive_failures ≥ 3)) ∧
    (∀ (cfg : MailConfig) (env : AcquireEnv) (st : MailerState)
        (info : TransporterInfo),
      cache_get st.cache "default" = some info →
      env.verify_existing = true →
      (((get_transporter cfg env st).2 = Except.ok info.transporter ∧
        (get_transporter cfg env st).1.cache = st.cache ∧
        (get_transporter cfg env st).1.create_count = st.create_count) ↔
        should_refresh_transporter env.now env.is_idle info = false)) ∧
    (∀ (now : Nat) (idle_of : Nat → Bool)
        (entries : List (String × TransporterInfo)) (k : String)
        (info : TransporterInfo),
      ((k, info) ∈ (sweep_entries now idle_of entries).1 ↔
        ((k, info) ∈ entries ∧
          should_refresh_transporter now (idle_of info.transporter) info = false))) := by
  refine ⟨?_, ?_, ?_⟩
  · intro now is_idle info
    simp only [should_refresh_transporter, Bool.or_eq_true, decide_eq_true_eq,
      Bool.not_eq_true']
    tauto
  · intro cfg env st info hget hver
    constructor
    · intro ⟨hok, hcache, hcount⟩
      by_contra href
      rw [Bool.not_eq_false] at href
      unfold get_transporter at hok hcache hcount
      rw [hget, hver] at hok hcache hcount
      simp only [if_true, href, if_true] at hok hcache hcount
      cases hcfg : get_transport_config cfg with
      | error e =>
        rw [hcfg] at hcache
        simp at hcache
        have hnone := cache_get_delete st.cache "default"
        rw [hcache] at hnone
        rw [hget] at hnone
        exact Option.noConfusion hnone
      | ok tc =>
        rw [hcfg] at hcount
        cases henv : env.verify_new with
        | none => rw [henv] at hcount; simp at hcount
        | some e => rw [henv] at hcount; simp at hcount
    · intro href
      unfold get_transporter
      rw [hget, hver]
      simp [href]
  · intro now idle_of entries k info
    induction entries with
    | nil => simp [sweep_entries]
    | cons p rest ih =>
      by_cases hp : should_refresh_transporter now (idle_of p.2.transporter) p.2 = true
      · simp only [sweep_entries, hp, if_true, List.mem_cons]
        rw [ih]
        constructor
        · rintro ⟨hmem, hfalse⟩
          exact ⟨Or.inr hmem, hfalse⟩
        · rintro ⟨hmem | hmem, hfalse⟩
          · exfalso
            cases hmem
            rw [hp] at hfalse
            exact Bool.noConfusion hfalse
          · exact ⟨hmem, hfalse⟩
      · rw [Bool.not_eq_true] at hp
        simp only [sweep_entries, hp, Bool.false_eq_true, if_false, List.mem_cons]
        rw [ih]
        constructor
        · rintro (hmem | ⟨hmem, hfalse⟩)
          · cases hmem
            exact ⟨Or.inl rfl, hp⟩
          · exact ⟨Or.inr hmem, hfalse⟩
        · rintro ⟨hmem | hmem, hfalse⟩
          · cases hmem
            exact Or.inl rfl
          · exact Or.inr ⟨hmem, hfalse⟩

/-- Witness for claim C1: the acquire conjunct applied to a concrete fresh
cached transporter (handle 5) under a basic SMTP config at time 1000 ms. -/
theorem claim_C1_witness :
    ((get_transporter
        { mailgun_api_key := none, mailgun_domain := none,
          host := some "smtp.test.com", port := some 587, user := none,
          password := none, noreply_email := none, is_dev := false }
        { now := 1000, verify_existing := true, is_idle := true, verify_new := none }
        { cache := [("default",
            { transporter := 5, created_at := 0, email_count := 0,
              last_used := 0, consecutive_failures := 0, closing := false })],
          cleanup_active := true, next_id := 6, create_count := 1,
          verify_count := 1, close_calls := [], sleeps := [] }).2 =
        Except.ok 5 ∧
      (get_transporter
        { mailgun_api_key := none, mailgun_domain := none,
          host := some "smtp.test.com", port := some 587, user := none,
          password := none, noreply_email := none, is_dev := false }
        { now := 1000, verify_existing := true, is_idle := true, verify_new := none }
        { cache := [("default",
            { transporter := 5, created_at := 0, email_count := 0,
              last_used := 0, consecutive_failures := 0, closing := false })],
          cleanup_active := true, next_id := 6, create_count := 1,
          verify_count := 1, close_calls := [], sleeps := [] }).1.cache =
        [("default",
          { transporter := 5, created_at := 0, email_count := 0,
            last_used := 0, consecutive_failures := 0, closing := false })] ∧
      (get_transporter
        { mailgun_api_key := none, mailgun_domain := none,
          host := some "smtp.test.com", port := some 587, user := none,
          password := none, noreply_email := none, is_dev := false }
        { now := 1000, verify_existing := true, is_idle := true, verify_new := none }
        { cache := [("default",
            { transporter := 5, created_at := 0, email_count := 0,
              last_used := 0, consecutive_failures := 0, closing := false })],
          cleanup_active := true, next_id := 6, create_count := 1,
          verify_count := 1, close_calls := [], sleeps := [] }).1.create_count = 1) ↔
    should_refresh_transporter 1000 true
      { transporter := 5, created_at := 0, email_count := 0, last_used := 0,
        consecutive_failures := 0, closing := false } = false :=
  claim_C1.2.1
    { mailgun_api_key := none, mailgun_domain := none,
      host := some "smtp.test.com", port := some 587, user := none,
      password := none, noreply_email := none, is_dev := false }
    { now := 1000, verify_existing := true, is_idle := true, verify_new := none }
    { cache := [("default",
        { transporter := 5, created_at := 0, email_count := 0,
          last_used := 0, consecutive_failures := 0, closing := false })],
      cleanup_active := true, next_id := 6, create_count := 1,
      verify_count := 1, close_calls := [], sleeps := [] }
    { transporter := 5, created_at := 0, email_count := 0, last_used := 0,
      consecutive_failures := 0, closing := false }
    (by rfl) (by rfl)

/-- Claim C2: with retry enabled and `(max_retries, retry_delay,
retryable_errors)` supplied, a failing attempt `n` (1-based) is retried iff
`n ≤ max_retries` and (the retryable-error list is empty, or the error
message contains one of the listed substrings); the delay slept before
retry `k` (the retry following failing attempt `k`) is
`retry_delay * 2 ^ (k - 1)`, and the send loop sleeps exactly that delay
when it retries. -/
theorem claim_C2 :
    (∀ (m rd : Nat) (l : List String) (msg : String) (n : Nat),
      should_retry true
        { maxRetries := some m, retryDelay := some rd, retryableErrors := some l }
        msg n = true ↔
        (n ≤ m ∧ (l = [] ∨ ∃ sub ∈ l, contains_str msg sub))) ∧
    (∀ (rd : Nat) (mr : Option Nat) (rl : Option (List String)) (k : Nat),
      retry_delay_for { maxRetries := mr, retryDelay := some rd, retryableErrors := rl } k
        = rd * 2 ^ (k - 1)) ∧
    (∀ (cfg : MailConfig) (re : Bool) (retry : RetryConfig)
        (payload : EmailPayload) (env : AttemptEnv) (rest : List AttemptEnv)
        (attempt : Nat) (st st1 : MailerState) (tid : Nat) (err : JsError),
      validate_payload payload = none →
      get_transporter cfg env.acquire st = (st1, Except.ok tid) →
      env.dispatch = some err →
      should_retry re retry err.message attempt = true →
      send_loop cfg re retry payload (env :: rest) attempt st =
        send_loop cfg re retry payload rest (attempt + 1)
          { update_transporter_metrics false env.acquire.now st1 with
              sleeps := (update_transporter_metrics false env.acquire.now st1).sleeps
                ++ [retry_delay_for retry attempt] }) := by
  refine ⟨?_, ?_, ?_⟩
  · intro m rd l msg n
    simp only [should_retry, Option.getD_some, Bool.not_true, Bool.false_eq_true,
      if_false]
    by_cases hn : n > m
    · simp [if_pos hn]
      omega
    · rw [if_neg hn]
      have hn2 : n ≤ m := by omega
      by_cases hl : l = []
      · simp [hl, hn2]
      · have hle : l.isEmpty = false := by
          simpa [List.isEmpty_iff] using hl
        simp only [hle, Bool.false_eq_true, if_false, List.any_eq_true,
          js_includes_iff]
        constructor
        · rintro ⟨sub, hmem, hc⟩
          exact ⟨hn2, Or.inr ⟨sub, hmem, hc⟩⟩
        · rintro ⟨_, hl2 | ⟨sub, hmem, hc⟩⟩
          · exact absurd hl2 hl
          · exact ⟨sub, hmem, hc⟩
  · intro rd mr rl k
    simp [retry_delay_for]
  · intro cfg re retry payload env rest attempt st st1 tid err hval hacq hdisp hretry
    simp only [send_loop, hval, hacq, hdisp, hretry, if_true]

/-- Witness for claim C2: the retry conjuncts applied at concrete inputs —
the policy `(max_retries 3, retry_delay 100, retryable list ["Temporary Error"])`
evaluated at a matching message and attempt 1, the delay formula at retry 2,
and one concrete loop step that retries (and sleeps 100 ms) after a failing
first attempt. -/
theorem claim_C2_witness :
    (should_retry true
      { maxRetries := some 3, retryDelay := some 100,
        retryableErrors := some ["Temporary Error"] }
      "oops: Temporary Error hit" 1 = true ↔
      (1 ≤ 3 ∧ (["Temporary Error"] = [] ∨
        ∃ sub ∈ ["Temporary Error"], contains_str "oops: Temporary Error hit" sub))) ∧
    retry_delay_for
      { maxRetries := some 3, retryDelay := some 100,
        retryableErrors := some ["Temporary Error"] } 2 = 100 * 2 ^ (2 - 1) ∧
    send_loop
      { mailgun_api_key := none, mailgun_domain := none,
        host := some "smtp.test.com", port := some 587, user := none,
        password := none, noreply_email := none, is_dev := false }
      true
      { maxRetries := some 3, retryDelay := some 100, retryableErrors := some [] }
      { to_ := "a@b.c", subject := "s", text := none, from_ := none,
        html := some { title := "T", style := none, body := "B" },
        reply_to := none }
      [{ acquire := { now := 1000, verify_existing := true, is_idle := true, verify_new := none },
         dispatch := some (.other "boom") }]
      1
      { cache := [("default",
          { transporter := 5, created_at := 0, email_count := 0,
            last_used := 0, consecutive_failures := 0, closing := false })],
        cleanup_active := true, next_id := 6, create_count := 1,
        verify_count := 1, close_calls := [], sleeps := [] } =
    send_loop
      { mailgun_api_key := none, mailgun_domain := none,
        host := some "smtp.test.com", port := some 587, user := none,
        password := none, noreply_email := none, is_dev := false }
      true
      { maxRetries := some 3, retryDelay := some 100, retryableErrors := some [] }
      { to_ := "a@b.c", subject := "s", text := none, from_ := none,
        html := some { title := "T", style := none, body := "B" },
        reply_to := none }
      [] 2
      { update_transporter_metrics false 1000
          { cache := [("default",
              { transporter := 5, created_at := 0, email_count := 0,
                last_used := 0, consecutive_failures := 0, closing := false })],
            cleanup_active := true, next_id := 6, create_count := 1,
            verify_count := 2, close_calls := [], sleeps := [] } with
        sleeps := (update_transporter_metrics false 1000
            { cache := [("default",
                { transporter := 5, created_at := 0, email_count := 0,
                  last_used := 0, consecutive_failures := 0, closing := false })],
              cleanup_active := true, next_id := 6, create_count := 1,
              verify_count := 2, close_calls := [], sleeps := [] }).sleeps
          ++ [retry_delay_for
              { maxRetries := some 3, retryDelay := some 100,
                retryableErrors := some [] } 1] } :=
  ⟨claim_C2.1 3 100 ["Temporary Error"] "oops: Temporary Error hit" 1,
   claim_C2.2.1 100 (some 3) (some ["Temporary Error"]) 2,
   claim_C2.2.2
     { mailgun_api_key := none, mailgun_domain := none,
       host := some "smtp.test.com", port := some 587, user := none,
       password := none, noreply_email := none, is_dev := false }
     true
     { maxRetries := some 3, retryDelay := some 100, retryableErrors := some [] }
     { to_ := "a@b.c", subject := "s", text := none, from_ := none,
       html := some { title := "T", style := none, body := "B" },
       reply_to := none }
     { acquire := { now := 1000, verify_existing := true, is_idle := true, verify_new := none },
       dispatch := some (.other "boom") }
     [] 1
     { cache := [("default",
         { transporter := 5, created_at := 0, email_count := 0,
           last_used := 0, consecutive_failures := 0, closing := false })],
       cleanup_active := true, next_id := 6, create_count := 1,
       verify_count := 1, close_calls := [], sleeps := [] }
     { cache := [("default",
         { transporter := 5, created_at := 0, email_count := 0,
           last_used := 0, consecutive_failures := 0, closing := false })],
       cleanup_active := true, next_id := 6, create_count := 1,
       verify_count := 2, close_calls := [], sleeps := [] }
     5 (.other "boom") (by rfl) (by rfl) (by rfl) (by rfl)⟩

/-- Claim C4: recording a failed attempt increments the consecutive-failure
count of the cached record by one and a successful attempt resets it to
zero; once the count has reached 3, the next acquire creates a new
connection (the creation counter increments). -/
theorem claim_C4 :
    (∀ (now : Nat) (st : MailerState) (info : TransporterInfo),
      cache_get st.cache "default" = some info →
      cache_get (update_transporter_metrics false now st).cache "default" =
        some { info with email_count := info.email_count + 1, last_used := now,
                         consecutive_failures := info.consecutive_failures + 1 }) ∧
    (∀ (now : Nat) (st : MailerState) (info : TransporterInfo),
      cache_get st.cache "default" = some info →
      cache_get (update_transporter_metrics true now st).cache "default" =
        some { info with email_count := info.email_count + 1, last_used := now,
                         consecutive_failures := 0 }) ∧
    (∀ (cfg : MailConfig) (env : AcquireEnv) (st : MailerState)
        (info : TransporterInfo) (tc : TransportConfig),
      cache_get st.cache "default" = some info →
      info.consecutive_failures ≥ 3 →
      get_transport_config cfg = Except.ok tc →
      (get_transporter cfg env st).1.create_count = st.create_count + 1) := by
  refine ⟨?_, ?_, ?_⟩
  · intro now st info hget
    unfold update_transporter_metrics
    rw [hget]
    simp only [if_neg (by simp : ¬(false = true))]
    exact cache_get_set st.cache "default" _
  · intro now st info hget
    unfold update_transporter_metrics
    rw [hget]
    simp only [if_pos rfl]
    exact cache_get_set st.cache "default" _
  · intro cfg env st info tc hget h3 hcfg
    have href : should_refresh_transporter env.now env.is_idle info = true := by
      simp [should_refresh_transporter, h3]
    unfold get_transporter
    rw [hget]
    cases hv : env.verify_existing with
    | true =>
      simp only [if_pos rfl, href, if_true, hcfg]
      cases env.verify_new <;> rfl
    | false =>
      simp only [Bool.false_eq_true, if_false, hcfg]
      cases env.verify_new <;> rfl

/-- Witness for claim C4: the three conjuncts applied to a concrete record
(two prior failures for the metric conjuncts; three failures for the
acquire conjunct) under a basic SMTP config. -/
theorem claim_C4_witness :
    (cache_get (update_transporter_metrics false 2000
        { cache := [("default",
            { transporter := 5, created_at := 0, email_count := 7,
              last_used := 0, consecutive_failures := 2, closing := false })],
          cleanup_active := true, next_id := 6, create_count := 1,
          verify_count := 1, close_calls := [], sleeps := [] }).cache "default" =
      some { transporter := 5, created_at := 0, email_count := 8,
             last_used := 2000, consecutive_failures := 3, closing := false }) ∧
    (cache_get (update_transporter_metrics true 2000
        { cache := [("default",
            { transporter := 5, created_at := 0, email_count := 7,
              last_used := 0, consecutive_failures := 2, closing := false })],
          cleanup_active := true, next_id := 6, create_count := 1,
          verify_count := 1, close_calls := [], sleeps := [] }).cache "default" =
      some { transporter := 5, created_at := 0, email_count := 8,
             last_used := 2000, consecutive_failures := 0, closing := false }) ∧
    (get_transporter
        { mailgun_api_key := none, mailgun_domain := none,
          host := some "smtp.test.com", port := some 587, user := none,
          password := none, noreply_email := none, is_dev := false }
        { now := 2000, verify_existing := true, is_idle := true, verify_new := none }
        { cache := [("default",
            { transporter := 5, created_at := 0, email_count := 7,
              last_used := 0, consecutive_failures := 3, closing := false })],
          cleanup_active := true, next_id := 6, create_count := 1,
          verify_count := 1, close_calls := [], sleeps := [] }).1.create_count = 2 :=
  ⟨claim_C4.1 2000
    { cache := [("default",
        { transporter := 5, created_at := 0, email_count := 7,
          last_used := 0, consecutive_failures := 2, closing := false })],
      cleanup_active := true, next_id := 6, create_count := 1,
      verify_count := 1, close_calls := [], sleeps := [] }
    { transporter := 5, created_at := 0, email_count := 7, last_used := 0,
      consecutive_failures := 2, closing := false } (by rfl),
   claim_C4.2.1 2000
    { cache := [("default",
        { transporter := 5, created_at := 0, email_count := 7,
          last_used := 0, consecutive_failures := 2, closing := false })],
      cleanup_active := true, next_id := 6, create_count := 1,
      verify_count := 1, close_calls := [], sleeps := [] }
    { transporter := 5, created_at := 0, email_count := 7, last_used := 0,
      consecutive_failures := 2, closing := false } (by rfl),
   claim_C4.2.2
    { mailgun_api_key := none, mailgun_domain := none,
      host := some "smtp.test.com", port := some 587, user := none,
      password := none, noreply_email := none, is_dev := false }
    { now := 2000, verify_existing := true, is_idle := true, verify_new := none }
    { cache := [("default",
        { transporter := 5, created_at := 0, email_count := 7,
          last_used := 0, consecutive_failures := 3, closing := false })],
      cleanup_active := true, next_id := 6, create_count := 1,
      verify_count := 1, close_calls := [], sleeps := [] }
    { transporter := 5, created_at := 0, email_count := 7, last_used := 0,
      consecutive_failures := 3, closing := false }
    (TransportConfig.smtp "smtp.test.com" 587 true none)
    (by rfl) (by decide) (by rfl)⟩

theorem validate_payload_shape (p : EmailPayload) (e : JsError)
    (hv : validate_payload p = some e) :
    ∃ m, e = .email m .VALIDATION none := by
  by_cases h1 : p.to_ == "" <;> by_cases h2 : p.subject == "" <;>
    by_cases h3 : p.html.isNone <;>
      simp [validate_payload, h1, h2, h3] at hv
  all_goals
    first
    | exact ⟨_, hv.symm⟩
    | exact ⟨_, hv⟩
    | exact ⟨_, hv.2.symm⟩

theorem validate_payload_invalid (p : EmailPayload)
    (h : p.to_ = "" ∨ p.subject = "" ∨ p.html = none ∨
      ∃ hb, p.html = some hb ∧ (hb.title = "" ∨ hb.body = "")) :
    ∃ m, validate_payload p = some (.email m .VALIDATION none) := by
  cases hv : validate_payload p with
  | some e =>
    obtain ⟨m, rfl⟩ := validate_payload_shape p e hv
    exact ⟨m, rfl⟩
  | none =>
    exfalso
    rcases h with h | h | h | ⟨hb, hsome, hx⟩
    · simp [validate_payload, h, List.cons_append] at hv
    · simp [validate_payload, h, List.cons_append] at hv
    · simp [validate_payload, h] at hv
    · have h1 : ¬(p.to_ == "") = true := by
        intro hc
        simp [validate_payload, beq_iff_eq.mp hc, List.cons_append] at hv
      have h2 : ¬(p.subject == "") = true := by
        intro hc
        simp [validate_payload, beq_iff_eq.mp hc, List.cons_append, h1] at hv
      simp only [validate_payload, h1, h2, hsome, Option.isNone_some,
        Bool.false_eq_true, if_false, Option.isNone, Option.getD_some,
        List.append_nil, List.nil_append, List.length_nil, gt_iff_lt,
        Nat.lt_irrefl, Bool.or_eq_true, beq_iff_eq] at hv
      rcases hx with hx | hx <;> simp [hx] at hv

/-- Claim C5: for every payload missing a required field (`to`, `subject`,
`html`, `html.title` or `html.body`, the empty string included),
`send_mail` raises an `EmailError` with code `EMAIL_VALIDATION_ERROR` and
the pool state is completely untouched — in particular no transporter is
created or verified and the cache is unchanged. -/
theorem claim_C5 (cfg : MailConfig) (re : Bool) (retry : RetryConfig)
    (payload : EmailPayload) (env : AttemptEnv) (rest : List AttemptEnv)
    (st : MailerState)
    (h : payload.to_ = "" ∨ payload.subject = "" ∨ payload.html = none ∨
      ∃ hb, payload.html = some hb ∧ (hb.title = "" ∨ hb.body = "")) :
    ∃ m, send_mail cfg re retry payload (env :: rest) st =
      (st, .error (.email m .VALIDATION none)) := by
  obtain ⟨m, hm⟩ := validate_payload_invalid payload h
  refine ⟨m, ?_⟩
  unfold send_mail
  simp [send_loop, hm, normalize_error, JsError.isEmailError]

/-- Witness for claim C5: a payload whose `html.title` is the empty string
fails validation and leaves a concrete one-entry state untouched. -/
theorem claim_C5_witness :
    ∃ m, send_mail
      { mailgun_api_key := none, mailgun_domain := none,
        host := some "smtp.test.com", port := some 587, user := none,
        password := none, noreply_email := none, is_dev := false }
      false
      { maxRetries := none, retryDelay := none, retryableErrors := none }
      { to_ := "a@b.c", subject := "s", text := none, from_ := none,
        html := some { title := "", style := none, body := "B" },
        reply_to := none }
      [{ acquire := { now := 1000, verify_existing := true, is_idle := true, verify_new := none },
         dispatch := none }]
      { cache := [], cleanup_active := true, next_id := 0, create_count := 0,
        verify_count := 0, close_calls := [], sleeps := [] } =
      ({ cache := [], cleanup_active := true, next_id := 0, create_count := 0,
         verify_count := 0, close_calls := [], sleeps := [] },
       .error (.email m .VALIDATION none)) :=
  claim_C5
    { mailgun_api_key := none, mailgun_domain := none,
      host := some "smtp.test.com", port := some 587, user := none,
      password := none, noreply_email := none, is_dev := false }
    false
    { maxRetries := none, retryDelay := none, retryableErrors := none }
    { to_ := "a@b.c", subject := "s", text := none, from_ := none,
      html := some { title := "", style := none, body := "B" },
      reply_to := none }
    { acquire := { now := 1000, verify_existing := true, is_idle := true, verify_new := none },
      dispatch := none }
    []
    { cache := [], cleanup_active := true, next_id := 0, create_count := 0,
      verify_count := 0, close_calls := [], sleeps := [] }
    (Or.inr (Or.inr (Or.inr
      ⟨{ title := "", style := none, body := "B" }, rfl, Or.inl rfl⟩)))

theorem destroy_close_list_eq (c : List (String × TransporterInfo))
    (h : ∀ p ∈ c, p.2.closing = false) :
    destroy_close_list c = c.map (fun p => p.2.transporter) := by
  induction c with
  | nil => rfl
  | cons p rest ih =>
    have hp : p.2.closing = false := h p (List.mem_cons_self p rest)
    have hrest : ∀ q ∈ rest, q.2.closing = false :=
      fun q hq => h q (List.mem_cons_of_mem p hq)
    simp [destroy_close_list, close_invocations, hp, ih hrest]

/-- Claim C7: `destroy()` stops the periodic cleanup timer, invokes `close`
exactly once on every currently cached transporter — whatever the
individual close outcomes (failure and timeout included) — and leaves the
cache empty.  The hypotheses say no record is already mid-close and the
cached handles are pairwise distinct, which hold of every state the mailer
reaches between operations (each eviction removes the record it closes
within the same step, and handles are allocated from a fresh counter). -/
theorem claim_C7 (st : MailerState) (outcomes : List CloseOutcome)
    (hclosing : ∀ p ∈ st.cache, p.2.closing = false)
    (hnodup : (st.cache.map (fun p => p.2.transporter)).Nodup) :
    (destroy st outcomes).cleanup_active = false ∧
    (destroy st outcomes).cache = [] ∧
    (destroy st outcomes).close_calls =
      st.close_calls ++ st.cache.map (fun p => p.2.transporter) ∧
    ∀ p ∈ st.cache,
      ((destroy st outcomes).close_calls.drop st.close_calls.length).count
        p.2.transporter = 1 := by
  have hlist := destroy_close_list_eq st.cache hclosing
  refine ⟨rfl, rfl, ?_, ?_⟩
  · simp [destroy, hlist]
  · intro p hp
    have hdrop : (destroy st outcomes).close_calls.drop st.close_calls.length =
        st.cache.map (fun p => p.2.transporter) := by
      simp [destroy, hlist, List.drop_left]
    rw [hdrop]
    exact List.count_eq_one_of_mem hnodup
      (List.mem_map_of_mem (fun p => p.2.transporter) hp)

/-- Witness for claim C7: a state caching two distinct transporters, both
idle, destroyed while one close times out and the other fails. -/
theorem claim_C7_witness :
    (destroy
      { cache := [("default",
          { transporter := 3, created_at := 0, email_count := 1,
            last_used := 0, consecutive_failures := 0, closing := false }),
         ("other",
          { transporter := 4, created_at := 0, email_count := 2,
            last_used := 0, consecutive_failures := 1, closing := false })],
        cleanup_active := true, next_id := 5, create_count := 2,
        verify_count := 2, close_calls := [9], sleeps := [] }
      [CloseOutcome.timeout, CloseOutcome.failure]).cleanup_active = false ∧
    (destroy
      { cache := [("default",
          { transporter := 3, created_at := 0, email_count := 1,
            last_used := 0, consecutive_failures := 0, closing := false }),
         ("other",
          { transporter := 4, created_at := 0, email_count := 2,
            last_used := 0, consecutive_failures := 1, closing := false })],
        cleanup_active := true, next_id := 5, create_count := 2,
        verify_count := 2, close_calls := [9], sleeps := [] }
      [CloseOutcome.timeout, CloseOutcome.failure]).cache = [] ∧
    (destroy
      { cache := [("default",
          { transporter := 3, created_at := 0, email_count := 1,
            last_used := 0, consecutive_failures := 0, closing := false }),
         ("other",
          { transporter := 4, created_at := 0, email_count := 2,
            last_used := 0, consecutive_failures := 1, closing := false })],
        cleanup_active := true, next_id := 5, create_count := 2,
        verify_count := 2, close_calls := [9], sleeps := [] }
      [CloseOutcome.timeout, CloseOutcome.failure]).close_calls = [9] ++ [3, 4] ∧
    ∀ p ∈ [("default",
          ({ transporter := 3, created_at := 0, email_count := 1,
             last_used := 0, consecutive_failures := 0, closing := false } : TransporterInfo)),
         ("other",
          { transporter := 4, created_at := 0, email_count := 2,
            last_used := 0, consecutive_failures := 1, closing := false })],
      (((destroy
        { cache := [("default",
            { transporter := 3, created_at := 0, email_count := 1,
              last_used := 0, consecutive_failures := 0, closing := false }),
           ("other",
            { transporter := 4, created_at := 0, email_count := 2,
              last_used := 0, consecutive_failures := 1, closing := false })],
          cleanup_active := true, next_id := 5, create_count := 2,
          verify_count := 2, close_calls := [9], sleeps := [] }
        [CloseOutcome.timeout, CloseOutcome.failure]).close_calls.drop
          ([9] : List Nat).length).count p.2.transporter) = 1 :=
  claim_C7
    { cache := [("default",
        { transporter := 3, created_at := 0, email_count := 1,
          last_used := 0, consecutive_failures := 0, closing := false }),
       ("other",
        { transporter := 4, created_at := 0, email_count := 2,
          last_used := 0, consecutive_failures := 1, closing := false })],
      cleanup_active := true, next_id := 5, create_count := 2,
      verify_count := 2, close_calls := [9], sleeps := [] }
    [CloseOutcome.timeout, CloseOutcome.failure]
    (by decide) (by decide)

theorem get_transporter_error_shape (cfg : MailConfig) (env : AcquireEnv)
    (st st1 : MailerState) (e : JsError)
    (h : get_transporter cfg env st = (st1, .error e)) :
    ∃ m o, e = .email m .TRANSPORT o := by
  unfold get_transporter at h
  cases hg : cache_get st.cache "default" with
  | none =>
    rw [hg] at h
    simp only [] at h
    cases hc : get_transport_config cfg with
    | error e2 =>
      rw [hc] at h
      simp only [Prod.mk.injEq, Except.error.injEq] at h
      exact ⟨_, _, h.2.symm⟩
    | ok tc =>
      rw [hc] at h
      cases hv : env.verify_new with
      | none =>
        rw [hv] at h
        simp at h
      | some e3 =>
        rw [hv] at h
        simp only [Prod.mk.injEq, Except.error.injEq] at h
        exact ⟨_, _, h.2.symm⟩
  | some existing =>
    rw [hg] at h
    simp only [] at h
    cases hve : env.verify_existing with
    | false =>
      rw [hve] at h
      simp only [Bool.false_eq_true, if_false] at h
      cases hc : get_transport_config cfg with
      | error e2 =>
        rw [hc] at h
        simp only [Prod.mk.injEq, Except.error.injEq] at h
        exact ⟨_, _, h.2.symm⟩
      | ok tc =>
        rw [hc] at h
        cases hv : env.verify_new with
        | none =>
          rw [hv] at h
          simp at h
        | some e3 =>
          rw [hv] at h
          simp only [Prod.mk.injEq, Except.error.injEq] at h
          exact ⟨_, _, h.2.symm⟩
    | true =>
      rw [hve] at h
      simp only [if_true] at h
      cases href : should_refresh_transporter env.now env.is_idle existing with
      | false =>
        rw [href] at h
        simp at h
      | true =>
        rw [href] at h
        simp only [if_true] at h
        cases hc : get_transport_config cfg with
        | error e2 =>
          rw [hc] at h
          simp only [Prod.mk.injEq, Except.error.injEq] at h
          exact ⟨_, _, h.2.symm⟩
        | ok tc =>
          rw [hc] at h
          cases hv : env.verify_new with
          | none =>
            rw [hv] at h
            simp at h
          | some e3 =>
            rw [hv] at h
            simp only [Prod.mk.injEq, Except.error.injEq] at h
            exact ⟨_, _, h.2.symm⟩

/-- Claim C8: every error `send_mail` raises is an `EmailError` whose code
is one of the five declared codes; the outer catch re-raises a thrown
`EmailError` unchanged (original code preserved) and wraps any other thrown
value into an `EmailError` with code `EMAIL_SEND_ERROR`. -/
theorem claim_C8 :
    (∀ (cfg : MailConfig) (re : Bool) (retry : RetryConfig)
        (payload : EmailPayload) (envs : List AttemptEnv) (attempt : Nat)
        (st st2 : MailerState) (e : JsError),
      send_loop cfg re retry payload envs attempt st = (st2, .error e) →
      ∃ m c o, e = .email m c o ∧
        c ∈ [ErrorCode.CONFIGURATION, ErrorCode.TRANSPORT, ErrorCode.VALIDATION,
             ErrorCode.SEND, ErrorCode.CONNECTION]) ∧
    (∀ (n : Nat) (e : JsError), e.isEmailError = true → normalize_error n e = e) ∧
    (∀ (n : Nat) (m : String),
      normalize_error n (.other m) =
        .email ("Unexpected error sending email after " ++ toString n
          ++ " attempt(s): " ++ m) .SEND (some (.other m))) := by
  refine ⟨?_, ?_, ?_⟩
  · intro cfg re retry payload envs attempt st st2 e h
    induction envs generalizing attempt st st2 e with
    | nil => simp [send_loop] at h
    | cons env rest ih =>
      simp only [send_loop] at h
      cases hval : validate_payload payload with
      | some e0 =>
        rw [hval] at h
        obtain ⟨m0, rfl⟩ := validate_payload_shape payload e0 hval
        simp only [normalize_error, JsError.isEmailError, if_true,
          Prod.mk.injEq, SendOutcome.error.injEq] at h
        exact ⟨m0, .VALIDATION, none, h.2.symm, by simp⟩
      | none =>
        rw [hval] at h
        cases hpr : get_transporter cfg env.acquire st with
        | mk st1 r =>
          rw [hpr] at h
          cases r with
          | error e1 =>
            obtain ⟨m1, o1, rfl⟩ := get_transporter_error_shape cfg env.acquire st st1 e1 hpr
            simp only [normalize_error, JsError.isEmailError, if_true,
              Prod.mk.injEq, SendOutcome.error.injEq] at h
            exact ⟨m1, .TRANSPORT, o1, h.2.symm, by simp⟩
          | ok tid =>
            cases hd : env.dispatch with
            | none =>
              rw [hd] at h
              simp at h
            | some err =>
              simp only [hd] at h
              cases hr : should_retry re retry err.message attempt with
              | true =>
                simp only [hr, if_true] at h
                exact ih _ _ _ _ h
              | false =>
                simp only [hr, Bool.false_eq_true, if_false, normalize_error,
                  JsError.isEmailError, if_true, Prod.mk.injEq,
                  SendOutcome.error.injEq] at h
                exact ⟨_, .SEND, some err, h.2.symm, by simp⟩
  · intro n e he
    simp [normalize_error, he]
  · intro n m
    simp [normalize_error, JsError.isEmailError, JsError.message]

/-- Witness for claim C8: a send with retries disabled whose single
dispatch attempt rejects raises the wrapped SEND error; the taxonomy
conjunct applied to that concrete run. -/
theorem claim_C8_witness :
    ∃ m c o, JsError.email "Failed to send email after 1 attempt(s): boom"
        ErrorCode.SEND (some (.other "boom")) = .email m c o ∧
      c ∈ [ErrorCode.CONFIGURATION, ErrorCode.TRANSPORT, ErrorCode.VALIDATION,
           ErrorCode.SEND, ErrorCode.CONNECTION] :=
  claim_C8.1
    { mailgun_api_key := none, mailgun_domain := none,
      host := some "smtp.test.com", port := some 587, user := none,
      password := none, noreply_email := none, is_dev := false }
    false
    { maxRetries := none, retryDelay := none, retryableErrors := none }
    { to_ := "a@b.c", subject := "s", text := none, from_ := none,
      html := some { title := "T", style := none, body := "B" },
      reply_to := none }
    [{ acquire := { now := 1000, verify_existing := true, is_idle := true, verify_new := none },
       dispatch := some (.other "boom") }]
    1
    { cache := [], cleanup_active := true, next_id := 0, create_count := 0,
      verify_count := 0, close_calls := [], sleeps := [] }
    { cache := [("default",
        { transporter := 0, created_at := 1000, email_count := 1,
          last_used := 1000, consecutive_failures := 1, closing := false })],
      cleanup_active := true, next_id := 1, create_count := 1,
      verify_count := 1, close_calls := [], sleeps := [] }
    (JsError.email "Failed to send email after 1 attempt(s): boom"
      ErrorCode.SEND (some (.other "boom")))
    (by rfl)

/-- Claim C6 (amended): with SMTP host and port both present (truthy) the
transport selector always produces an SMTP descriptor — also when Mailgun
is fully configured; the descriptor carries an authentication block exactly
when both user and password are present, and in that case the pooling
parameters are the fixed literals (pool, 5 connections, 200
messages/connection, 1000 ms rate window, 5 messages/window) — they are not
configurable: the constructor stores nothing of the declared `rate_limit`
option and the selector reads only the stored config. -/
theorem claim_C6 :
    (∀ cfg : MailConfig, truthyS cfg.host = true → truthyN cfg.port = true →
      ∃ h p s a, get_transport_config cfg = .ok (.smtp h p s a)) ∧
    (∀ cfg : MailConfig, truthyS cfg.host = true → truthyN cfg.port = true →
      ((∃ h p s ap, get_transport_config cfg = .ok (.smtp h p s (some ap))) ↔
        (truthyS cfg.user = true ∧ truthyS cfg.password = true))) ∧
    (∀ (cfg : MailConfig) (h : String) (p : Nat) (s : Bool)
        (a : SmtpAuth) (ps : PoolSettings),
      get_transport_config cfg = .ok (.smtp h p s (some (a, ps))) →
      ps = { pool := true, maxConnections := 5, maxMessages := 200,
             rateDelta := 1000, rateLimit := 5 }) ∧
    (∀ (cfg : MailConfig) (opts : MailerOptions) (m : Mailer),
      init_mailer cfg opts = .ok m →
      m.config = cfg ∧ get_transport_config m.config = get_transport_config cfg) := by
  refine ⟨?_, ?_, ?_, ?_⟩
  · intro cfg hh hp
    refine ⟨(cfg.host).getD "", (cfg.port).getD 0, !cfg.is_dev,
      (if truthyS cfg.user && truthyS cfg.password then
        some ({ user := (cfg.user).getD "", pass := (cfg.password).getD "" },
          { pool := true, maxConnections := 5, maxMessages := 200,
            rateDelta := 1000, rateLimit := 5 })
      else none), ?_⟩
    unfold get_transport_config
    rw [if_pos (by simp [hh, hp])]
  · intro cfg hh hp
    constructor
    · rintro ⟨h, p, s, ap, hap⟩
      unfold get_transport_config at hap
      rw [if_pos (by simp [hh, hp])] at hap
      by_cases hup : (truthyS cfg.user && truthyS cfg.password) = true
      · simpa using hup
      · rw [if_neg hup] at hap
        simp at hap
    · rintro ⟨hu, hpw⟩
      refine ⟨(cfg.host).getD "", (cfg.port).getD 0, !cfg.is_dev,
        ({ user := (cfg.user).getD "", pass := (cfg.password).getD "" },
          { pool := true, maxConnections := 5, maxMessages := 200,
            rateDelta := 1000, rateLimit := 5 }), ?_⟩
      unfold get_transport_config
      rw [if_pos (by simp [hh, hp]), if_pos (by simp [hu, hpw])]
  · intro cfg h p s a ps hps
    unfold get_transport_config at hps
    by_cases hh : (truthyS cfg.host && truthyN cfg.port) = true
    · rw [if_pos hh] at hps
      by_cases hup : (truthyS cfg.user && truthyS cfg.password) = true
      · rw [if_pos hup] at hps
        simp only [Except.ok.injEq, TransportConfig.smtp.injEq,
          Option.some.injEq, Prod.mk.injEq] at hps
        exact hps.2.2.2.2.symm
      · rw [if_neg hup] at hps
        simp at hps
    · rw [if_neg hh] at hps
      by_cases hm : (truthyS cfg.mailgun_api_key && truthyS cfg.mailgun_domain) = true
      · rw [if_pos hm] at hps
        simp at hps
      · rw [if_neg hm] at hps
        simp at hps
  · intro cfg opts m hm
    unfold init_mailer at hm
    cases hv : validate_config cfg with
    | some e =>
      rw [hv] at hm
      simp at hm
    | none =>
      rw [hv] at hm
      simp only [Except.ok.injEq] at hm
      subst hm
      exact ⟨rfl, rfl⟩

/-- Counterexample for claim C6 as stated: the pooling parameters are not
configurable.  With the `rate_limit` option of the rate limiting test in
the repository (`max_connections 2, max_messages_per_connection 3,
rate_delta 1000, rate_limit 5`), construction succeeds, the spec-modelled
configurable settings would be `(2, 3, 1000, 5)`, but the descriptor built
by the code carries the fixed `(5, 200, 1000, 5)`. -/
theorem claim_C6_counterexample :
    init_mailer
      { mailgun_api_key := none, mailgun_domain := none,
        host := some "smtp.test.com", port := some 587, user := some "u",
        password := some "p", noreply_email := none, is_dev := false }
      { silent := false, retry := none,
        rate_limit := some { max_connections := some 2, max_messages_per_connection := some 3, rate_delta := some 1000, rate_limit := some 5 } } =
      .ok { config :=
              { mailgun_api_key := none, mailgun_domain := none,
                host := some "smtp.test.com", port := some 587, user := some "u",
                password := some "p", noreply_email := none, is_dev := false },
            retry := { maxRetries := none, retryDelay := none, retryableErrors := none },
            retry_enabled := false, cleanup_active := true } ∧
    spec_pool_settings
      { silent := false, retry := none,
        rate_limit := some { max_connections := some 2, max_messages_per_connection := some 3, rate_delta := some 1000, rate_limit := some 5 } } =
      { pool := true, maxConnections := 2, maxMessages := 3,
        rateDelta := 1000, rateLimit := 5 } ∧
    get_transport_config
      { mailgun_api_key := none, mailgun_domain := none,
        host := some "smtp.test.com", port := some 587, user := some "u",
        password := some "p", noreply_email := none, is_dev := false } =
      .ok (.smtp "smtp.test.com" 587 true
        (some ({ user := "u", pass := "p" },
          { pool := true, maxConnections := 5, maxMessages := 200,
            rateDelta := 1000, rateLimit := 5 }))) ∧
    ({ pool := true, maxConnections := 5, maxMessages := 200,
       rateDelta := 1000, rateLimit := 5 } : PoolSettings) ≠
      { pool := true, maxConnections := 2, maxMessages := 3,
        rateDelta := 1000, rateLimit := 5 } := by
  refine ⟨rfl, rfl, rfl, ?_⟩
  decide

/-- Witness for claim C6: the amended conjuncts applied to the full config
of the repository index test (SMTP and Mailgun both fully specified,
authenticated). -/
theorem claim_C6_witness :
    (∃ h p s a, get_transport_config
      { mailgun_api_key := some "test-key", mailgun_domain := some "test.com",
        host := some "smtp.test.com", port := some 587, user := some "u",
        password := some "p", noreply_email := none, is_dev := false } =
      .ok (.smtp h p s a)) ∧
    ((∃ h p s ap, get_transport_config
      { mailgun_api_key := some "test-key", mailgun_domain := some "test.com",
        host := some "smtp.test.com", port := some 587, user := some "u",
        password := some "p", noreply_email := none, is_dev := false } =
      .ok (.smtp h p s (some ap))) ↔
      (truthyS (some "u") = true ∧ truthyS (some "p") = true)) :=
  ⟨claim_C6.1
    { mailgun_api_key := some "test-key", mailgun_domain := some "test.com",
      host := some "smtp.test.com", port := some 587, user := some "u",
      password := some "p", noreply_email := none, is_dev := false }
    (by decide) (by decide),
   claim_C6.2.1
    { mailgun_api_key := some "test-key", mailgun_domain := some "test.com",
      host := some "smtp.test.com", port := some 587, user := some "u",
      password := some "p", noreply_email := none, is_dev := false }
    (by decide) (by decide)⟩

/-- Claim C3 evaluation: in `src/src/index.js`, a dispatch failure on a
fresh transporter record sets its email count to exactly 1000 (the "Force
transporter refresh on error" mutation), but the refresh predicate tests
`email_count > 1000`, so at the next acquire (here one minute later, with
`verify()` succeeding and `isIdle()` true) the predicate is false, the
cached handle 0 is returned and no new transporter is created — contrary
to the claim (and to the stated purpose of the mutation). -/
theorem claim_C3_eval :
    (v0_mark_failed
      { transporter := 0, created_at := 0, email_count := 0, last_used := 0 }).email_count
      = 1000 ∧
    v0_should_refresh_transporter 60000 true
      (v0_mark_failed
        { transporter := 0, created_at := 0, email_count := 0, last_used := 0 }) = false ∧
    v0_acquire_existing 60000 true 1
      (v0_mark_failed
        { transporter := 0, created_at := 0, email_count := 0, last_used := 0 }) =
      (0, false) := by
  refine ⟨rfl, ?_, ?_⟩ <;> decide

theorem cache_get_state_with (st : MailerState) (n : Nat) :
    ({ st with verify_count := n } : MailerState).cache = st.cache := rfl

/-- Claim C10 (amended): a successful `send_mail` that reuses a cached
record which exists and is not due for refresh mutates pool state only at
that record: its email count grows by one, its `last_used` becomes the send
time and its consecutive-failure counter is reset to zero, while its
`created_at`, its transporter handle, the creation counter and the set of
cache keys are all unchanged (the verify counter records the health check
on the cached connection). -/
theorem claim_C10 (cfg : MailConfig) (re : Bool) (retry : RetryConfig)
    (payload : EmailPayload) (env : AttemptEnv) (st : MailerState)
    (info : TransporterInfo)
    (hval : validate_payload payload = none)
    (hget : cache_get st.cache "default" = some info)
    (hver : env.acquire.verify_existing = true)
    (href : should_refresh_transporter env.acquire.now env.acquire.is_idle info = false)
    (hdisp : env.dispatch = none) :
    send_mail cfg re retry payload [env] st =
      ({ st with verify_count := st.verify_count + 1,
                 cache := cache_set st.cache "default"
                   { info with email_count := info.email_count + 1,
                               last_used := env.acquire.now,
                               consecutive_failures := 0 } }, .success) ∧
    (cache_set st.cache "default"
        { info with email_count := info.email_count + 1,
                    last_used := env.acquire.now,
                    consecutive_failures := 0 }).map Prod.fst =
      st.cache.map Prod.fst ∧
    ({ info with email_count := info.email_count + 1,
                 last_used := env.acquire.now,
                 consecutive_failures := 0 } : TransporterInfo).created_at =
      info.created_at ∧
    ({ info with email_count := info.email_count + 1,
                 last_used := env.acquire.now,
                 consecutive_failures := 0 } : TransporterInfo).transporter =
      info.transporter := by
  refine ⟨?_, cache_set_keys st.cache "default" _ info hget, rfl, rfl⟩
  unfold send_mail
  simp only [send_loop, hval]
  have hacq : get_transporter cfg env.acquire st =
      ({ st with verify_count := st.verify_count + 1 }, .ok info.transporter) := by
    unfold get_transporter
    rw [hget, hver]
    simp [href]
  simp only [hacq, hdisp]
  unfold update_transporter_metrics
  rw [cache_get_state_with, hget]
  simp

/-- Counterexample for claim C10 as stated: (i) a successful send with an
empty cache creates and caches a new record, changing the key set of the
cache; (ii) a successful send through a cached record with one recorded
failure also resets the consecutive-failure counter to zero — a mutation
beyond the email count and `last_used` timestamp. -/
theorem claim_C10_counterexample :
    ((send_mail
      { mailgun_api_key := none, mailgun_domain := none,
        host := some "smtp.test.com", port := some 587, user := none,
        password := none, noreply_email := none, is_dev := false }
      false
      { maxRetries := none, retryDelay := none, retryableErrors := none }
      { to_ := "a@b.c", subject := "s", text := none, from_ := none,
        html := some { title := "T", style := none, body := "B" },
        reply_to := none }
      [{ acquire := { now := 1000, verify_existing := true, is_idle := true, verify_new := none },
         dispatch := none }]
      { cache := [], cleanup_active := true, next_id := 0, create_count := 0,
        verify_count := 0, close_calls := [], sleeps := [] }).1.cache.map Prod.fst
      = ["default"] ∧
     ([] : List (String × TransporterInfo)).map Prod.fst = [] ∧
     (["default"] : List String) ≠ []) ∧
    ((send_mail
      { mailgun_api_key := none, mailgun_domain := none,
        host := some "smtp.test.com", port := some 587, user := none,
        password := none, noreply_email := none, is_dev := false }
      false
      { maxRetries := none, retryDelay := none, retryableErrors := none }
      { to_ := "a@b.c", subject := "s", text := none, from_ := none,
        html := some { title := "T", style := none, body := "B" },
        reply_to := none }
      [{ acquire := { now := 1000, verify_existing := true, is_idle := true, verify_new := none },
         dispatch := none }]
      { cache := [("default",
          { transporter := 5, created_at := 0, email_count := 3,
            last_used := 0, consecutive_failures := 1, closing := false })],
        cleanup_active := true, next_id := 6, create_count := 1,
        verify_count := 1, close_calls := [], sleeps := [] }).1.cache =
      [("default",
        { transporter := 5, created_at := 0, email_count := 4,
          last_used := 1000, consecutive_failures := 0, closing := false })] ∧
     (0 : Nat) ≠ 1) := by
  refine ⟨⟨?_, rfl, by decide⟩, ⟨?_, by decide⟩⟩ <;> rfl

/-- Witness for claim C10: the amended statement applied to a concrete
reused record with one prior failure at time 1000 ms. -/
theorem claim_C10_witness :
    send_mail
      { mailgun_api_key := none, mailgun_domain := none,
        host := some "smtp.test.com", port := some 587, user := none,
        password := none, noreply_email := none, is_dev := false }
      false
      { maxRetries := none, retryDelay := none, retryableErrors := none }
      { to_ := "a@b.c", subject := "s", text := none, from_ := none,
        html := some { title := "T", style := none, body := "B" },
        reply_to := none }
      [{ acquire := { now := 1000, verify_existing := true, is_idle := true, verify_new := none },
         dispatch := none }]
      { cache := [("default",
          { transporter := 5, created_at := 0, email_count := 3,
            last_used := 0, consecutive_failures := 1, closing := false })],
        cleanup_active := true, next_id := 6, create_count := 1,
        verify_count := 1, close_calls := [], sleeps := [] } =
      ({ cache := cache_set
            [("default",
              { transporter := 5, created_at := 0, email_count := 3,
                last_used := 0, consecutive_failures := 1, closing := false })]
            "default"
            { transporter := 5, created_at := 0, email_count := 4,
              last_used := 1000, consecutive_failures := 0, closing := false },
          cleanup_active := true, next_id := 6, create_count := 1,
          verify_count := 2, close_calls := [], sleeps := [] }, .success) :=
  (claim_C10
    { mailgun_api_key := none, mailgun_domain := none,
      host := some "smtp.test.com", port := some 587, user := none,
      password := none, noreply_email := none, is_dev := false }
    false
    { maxRetries := none, retryDelay := none, retryableErrors := none }
    { to_ := "a@b.c", subject := "s", text := none, from_ := none,
      html := some { title := "T", style := none, body := "B" },
      reply_to := none }
    { acquire := { now := 1000, verify_existing := true, is_idle := true, verify_new := none },
      dispatch := none }
    { cache := [("default",
        { transporter := 5, created_at := 0, email_count := 3,
          last_used := 0, consecutive_failures := 1, closing := false })],
      cleanup_active := true, next_id := 6, create_count := 1,
      verify_count := 1, close_calls := [], sleeps := [] }
    { transporter := 5, created_at := 0, email_count := 3, last_used := 0,
      consecutive_failures := 1, closing := false }
    (by rfl) (by rfl) (by rfl) (by decide) (by rfl)).1
